import Mathlib

/-
Shallow embedding of the satellite-ml-pipeline core: raster validation
(core_pipeline/validate.py), tiling (core_pipeline/tile.py), metrics recording and
monitoring aggregation (core_pipeline/observability.py), training (model/train.py),
health checks (model/health.py) and batch inference (core_pipeline/batch_inferences.py).

Python floats are modelled as rationals; the square root used by np.std / statistics.pstdev
is passed in as an explicit function parameter, so every statement holds for any square-root
implementation. Fallible Python code is modelled with Except over an error-kind type.
-/

namespace Pipeline

/-- Error kinds raised by the pipeline: the exception classes of
core_pipeline/exceptions.py plus the Python builtins the sources raise
(FileNotFoundError, ValueError, TypeError). -/
inductive PyError where
  | fileNotFoundError (msg : String)
  | typeError (msg : String)
  | undefinedCRSError
  | invalidRasterDimensionsError (width height : Int)
  | valueError (msg : String)
  | tileSizeTypeError
  | tileSizeValueError (value : Int)
  deriving Repr, DecidableEq

deriving instance DecidableEq for Except

/-- An affine geotransform (rasterio Affine): coefficients a b c d e f mapping
pixel (col, row) to (a*col + b*row + c, d*col + e*row + f). -/
structure Affine where
  a : ℚ
  b : ℚ
  c : ℚ
  d : ℚ
  e : ℚ
  f : ℚ
  deriving Repr, DecidableEq

/-- An on-disk raster source as seen through pathlib / rasterio: file existence,
optional CRS, dimensions, primary-band dtype and geotransform. -/
structure Raster where
  existsOnDisk : Bool
  crs : Option String
  width : Int
  height : Int
  dtype : String
  transform : Affine
  deriving Repr, DecidableEq

/-- A dynamically typed Python value, used where the source checks isinstance. -/
inductive PyVal where
  | int (n : Int)
  | float (q : ℚ)
  | str (s : String)
  | noneVal
  deriving Repr, DecidableEq

/-- validate_raster_exists (validate.py): FileNotFoundError when the path is absent. -/
def validate_raster_exists (r : Raster) : Except PyError Unit :=
  if r.existsOnDisk then .ok () else .error (.fileNotFoundError "Raster file not found")

/-- Constructing UndefinedCRSError: its Python initializer takes one required
positional argument crs (exceptions.py line 35), so calling the class with any
other number of arguments raises TypeError instead of producing the exception. -/
def mkUndefinedCRSError (args : List String) : Except PyError PyError :=
  match args with
  | [_] => .ok .undefinedCRSError
  | _ => .error (.typeError
      "UndefinedCRSError.__init__ missing 1 required positional argument: crs")

/-- validate_crs (validate.py): raise UndefinedCRSError() when crs is None.
The constructor call is evaluated first; if it itself raises, that error propagates. -/
def validate_crs (crs : Option String) : Except PyError Unit :=
  match crs with
  | none =>
      match mkUndefinedCRSError [] with
      | .ok e => .error e
      | .error e => .error e
  | some _ => .ok ()

/-- validate_dimensions (validate.py). -/
def validate_dimensions (width height : Int) : Except PyError Unit :=
  if width ≤ 0 ∨ height ≤ 0 then .error (.invalidRasterDimensionsError width height)
  else .ok ()

/-- The dtype allow-list of validate_dtype (validate.py). -/
def allowed_dtypes : List String := ["uint8", "uint16", "int16", "float32", "float64"]

/-- validate_dtype (validate.py): ValueError for dtypes outside the allow-list. -/
def validate_dtype (dtype : String) : Except PyError Unit :=
  if dtype ∈ allowed_dtypes then .ok ()
  else .error (.valueError ("Unsupported raster dtype " ++ dtype))

/-- validate_raster (validate.py): existence, then CRS, then dimensions, then dtype,
failing fast with the first violated check (the first raised error propagates). -/
def validate_raster (r : Raster) : Except PyError Unit :=
  match validate_raster_exists r with
  | .error e => .error e
  | .ok _ =>
    match validate_crs r.crs with
    | .error e => .error e
    | .ok _ =>
      match validate_dimensions r.width r.height with
      | .error e => .error e
      | .ok _ => validate_dtype r.dtype

/-- A written tile (tile.py): sequential id, zero-padded filename, window origin,
pixel dimensions, derived transform and copied raster metadata. -/
structure Tile where
  id : Nat
  filename : String
  row : Nat
  col : Nat
  height : Nat
  width : Nat
  transform : Affine
  crs : Option String
  dtype : String
  deriving Repr, DecidableEq

/-- Python f-string 05d zero padding. -/
def zeroPad5 (n : Nat) : String :=
  let s := toString n
  String.mk (List.replicate (5 - s.length) (Char.ofNat 48)) ++ s

/-- Python range(0, stop, step) for step > 0: the multiples of step below stop. -/
def pyRange0 (stop step : Nat) : List Nat :=
  (List.range ((stop + step - 1) / step)).map (fun k => k * step)

/-- rasterio.windows.transform for a window at pixel origin (col, row): the parent
transform composed with the translation by the window origin. -/
def windowTransform (t : Affine) (col row : Nat) : Affine :=
  { t with c := t.c + t.a * col + t.b * row, f := t.f + t.d * col + t.e * row }

/-- The tile written for window origin (row, col) with id tileId (tile.py lines 49-66):
tile_size by tile_size pixels, derived transform, metadata copied from the source. -/
def mkTile (r : Raster) (tileSize tileId row col : Nat) : Tile :=
  { id := tileId
    filename := zeroPad5 tileId ++ ".tif"
    row := row
    col := col
    height := tileSize
    width := tileSize
    transform := windowTransform r.transform col row
    crs := r.crs
    dtype := r.dtype }

/-- The body of the inner column loop of generate_tiles: skip windows extending past
the raster bound, otherwise write the tile and advance tile_id. -/
def tileBody (r : Raster) (height width tileSize row : Nat)
    (st : Nat × List Tile) (col : Nat) : Nat × List Tile :=
  if height < row + tileSize ∨ width < col + tileSize then st
  else (st.1 + 1, st.2 ++ [mkTile r tileSize st.1 row col])

/-- The nested row/column loop of generate_tiles (tile.py lines 41-68), returning the
final tile_id and the tiles written in emission order. -/
def tileLoop (r : Raster) (height width tileSize : Nat) : Nat × List Tile :=
  (pyRange0 height tileSize).foldl
    (fun st row => (pyRange0 width tileSize).foldl (tileBody r height width tileSize row) st)
    (0, [])

/-- The observable outcome of a generate_tiles call: the tiles written, the count
logged at the end, and the Python return value (the function is annotated and
ends with no return statement, so it returns None). -/
structure GenerateResult where
  tiles : List Tile
  loggedCount : Nat
  ret : Option Nat
  deriving Repr, DecidableEq

/-- generate_tiles (tile.py): validate the raster, check tile_size type then value,
run the tiling loop, log the count and return None. -/
def generate_tiles (r : Raster) (tile_size : PyVal) : Except PyError GenerateResult :=
  match validate_raster r with
  | .error e => .error e
  | .ok _ =>
    match tile_size with
    | .int s =>
        if s ≤ 0 then .error (.tileSizeValueError s)
        else
          let res := tileLoop r r.height.toNat r.width.toNat s.toNat
          .ok { tiles := res.2, loggedCount := res.1, ret := none }
    | _ => .error .tileSizeTypeError

/-- Lookup in a Python dict modelled as an insertion-ordered association list. -/
def dictGet {β : Type} (d : List (String × β)) (name : String) : Option β :=
  match d with
  | [] => none
  | (k, w) :: rest => if k = name then some w else dictGet rest name

/-- Python dict assignment d[name] = v: replace in place, or append a new key. -/
def dictSet {β : Type} (d : List (String × β)) (name : String) (v : β) :
    List (String × β) :=
  match d with
  | [] => [(name, v)]
  | (k, w) :: rest => if k = name then (k, v) :: rest else (k, w) :: dictSet rest name v

/-- Python d.get(name, 0) on a counter dict. -/
def dictGetInt (d : List (String × Int)) (name : String) : Int :=
  (dictGet d name).getD 0

/-- The three maps held by a MetricsRecorder (observability.py). Every mutating
operation and the snapshot run under the single recorder lock, so each is one
atomic state transition. -/
structure RecorderState where
  counters : List (String × Int)
  timings : List (String × List ℚ)
  values : List (String × List ℚ)
  deriving Repr, DecidableEq

/-- MetricsRecorder.increment (observability.py lines 36-39). -/
def RecorderState.increment (s : RecorderState) (name : String) (value : Int) :
    RecorderState :=
  { s with counters := dictSet s.counters name (dictGetInt s.counters name + value) }

/-- MetricsRecorder.record_timing (observability.py lines 41-51): create the entry
list when absent, then append. -/
def RecorderState.record_timing (s : RecorderState) (name : String) (duration : ℚ) :
    RecorderState :=
  let t := if (dictGet s.timings name).isSome then s.timings else dictSet s.timings name []
  { s with timings := dictSet t name ((dictGet t name).getD [] ++ [duration]) }

/-- MetricsRecorder.record_value (observability.py lines 53-63). -/
def RecorderState.record_value (s : RecorderState) (name : String) (value : ℚ) :
    RecorderState :=
  let t := if (dictGet s.values name).isSome then s.values else dictSet s.values name []
  { s with values := dictSet t name ((dictGet t name).getD [] ++ [value]) }

/-- MetricsRecorder.reset (observability.py lines 65-73): clear all three maps. -/
def RecorderState.reset (_ : RecorderState) : RecorderState :=
  { counters := [], timings := [], values := [] }

/-- MetricsRecorder.snapshot (observability.py lines 75-82): a point-in-time copy
of the three maps; in the pure model the copy is the current value itself. -/
def RecorderState.snapshot (s : RecorderState) : RecorderState := s

/-- The recorder state of a freshly constructed or reset MetricsRecorder. -/
def emptyRecorder : RecorderState := { counters := [], timings := [], values := [] }

/-- One recorder invocation. Each operation holds the recorder lock for its whole
body, so a concurrent execution of invocations is some interleaving, i.e. a
sequence, of these atomic operations. -/
inductive RecOp where
  | increment (name : String) (value : Int)
  | record_timing (name : String) (duration : ℚ)
  | record_value (name : String) (value : ℚ)
  | reset
  deriving Repr, DecidableEq

/-- Apply one atomic recorder operation. -/
def applyOp (s : RecorderState) : RecOp → RecorderState
  | .increment n v => s.increment n v
  | .record_timing n d => s.record_timing n d
  | .record_value n v => s.record_value n v
  | .reset => s.reset

/-- Run a sequence of recorder operations (one interleaving of concurrent callers). -/
def runOps (s : RecorderState) (ops : List RecOp) : RecorderState :=
  ops.foldl applyOp s

/-- Extracted per-tile features (model/features.py): mean and std of intensity. -/
structure Features where
  mean_intensity : ℚ
  std_intensity : ℚ
  deriving Repr, DecidableEq

/-- A model artifact dict as loaded by json.load (model/inferences.py load_model):
every field may be absent on artifacts not produced by the trainer. -/
structure Model where
  threshold : Option ℚ
  training_mean : Option ℚ
  training_std : Option ℚ
  deriving Repr, DecidableEq

/-- np.mean / statistics.fmean: arithmetic mean (0 on the empty list, where the
sources never call it). -/
def npMean (l : List ℚ) : ℚ := l.sum / l.length

/-- Population variance: mean of squared deviations from the mean. -/
def npVariance (l : List ℚ) : ℚ :=
  ((l.map fun x => (x - npMean l) ^ 2).sum) / l.length

/-- np.std / statistics.pstdev: population standard deviation, for any square-root
implementation sqrt. -/
def npStd (sqrt : ℚ → ℚ) (l : List ℚ) : ℚ := sqrt (npVariance l)

/-- train_model (model/train.py): ValueError on an empty feature list, otherwise a
model with threshold = training_mean = mean of the per-tile mean intensities and
training_std their population standard deviation. -/
def train_model (sqrt : ℚ → ℚ) (aggregated_features : List Features) :
    Except PyError Model :=
  if aggregated_features = [] then
    .error (.valueError
      "Cannot train model: aggregated_features must contain at least one feature set.")
  else
    let means := aggregated_features.map fun features => features.mean_intensity
    let threshold := npMean means
    let training_std := npStd sqrt means
    .ok { threshold := some threshold
          training_mean := some threshold
          training_std := some training_std }

/-- Counter-name constant TILES_INFERRED. Modelled from the spec: the constants
module (core_pipeline/pipeline_constants.py, also imported as shared.constants) is
not among the sources; the report schema of spec section 6 names the field
tiles_inferred. -/
def TILES_INFERRED : String := "tiles_inferred"

/-- Counter-name constant TILES_FAILED. Modelled from the spec: same missing
constants module; the report schema names the field tiles_failed. -/
def TILES_FAILED : String := "tiles_failed"

/-- The monitoring summary built once per batch run (observability.py
build_monitoring_metrics), with the nested dicts flattened into one record. -/
structure MonitoringMetrics where
  bright_percentage : ℚ
  bright_count : Int
  dark_count : Int
  mean_intensity_mean : ℚ
  mean_intensity_std : ℚ
  mean_intensity_delta : Option ℚ
  std_intensity_delta : Option ℚ
  deriving Repr, DecidableEq

/-- build_monitoring_metrics (observability.py lines 110-151). Note line 126: the
training mean falls back to the threshold key when training_mean is absent. -/
def build_monitoring_metrics (sqrt : ℚ → ℚ) (model : Model) (s : RecorderState) :
    MonitoringMetrics :=
  let total_tiles := dictGetInt s.counters TILES_INFERRED
  let prediction_bright := dictGetInt s.counters "prediction_1"
  let prediction_dark := dictGetInt s.counters "prediction_0"
  let mean_intensities := (dictGet s.values "mean_intensity").getD []
  let mean_intensity_mean := if mean_intensities ≠ [] then npMean mean_intensities else 0
  let mean_intensity_std :=
    if 1 < mean_intensities.length then npStd sqrt mean_intensities else 0
  let training_mean :=
    match model.training_mean with
    | some v => some v
    | none => model.threshold
  let training_std := model.training_std
  { bright_percentage :=
      if total_tiles ≠ 0 then (prediction_bright : ℚ) / (total_tiles : ℚ) * 100 else 0
    bright_count := prediction_bright
    dark_count := prediction_dark
    mean_intensity_mean := mean_intensity_mean
    mean_intensity_std := mean_intensity_std
    mean_intensity_delta := training_mean.map fun t => mean_intensity_mean - t
    std_intensity_delta := training_std.map fun t => mean_intensity_std - t }

/-- The retraining recommendation string of model/health.py. -/
def CONSIDER_RETRAINING_MODEL : String := "Consider retraining the model with recent data."

/-- The health report record of model/health.py. -/
structure HealthReport where
  drift_detected : Bool
  mean_intensity_delta : Option ℚ
  std_intensity_delta : Option ℚ
  recommendations : List String
  deriving Repr, DecidableEq

/-- check_model_health (model/health.py lines 60-113): reject non-positive
thresholds, then evaluate each of the two drift metrics in turn, deduplicating
the retraining recommendation on the second branch. -/
def check_model_health (model : Model) (monitoring : MonitoringMetrics)
    (drift_threshold : ℚ) : Except PyError HealthReport :=
  if drift_threshold ≤ 0 then .error (.valueError "drift_threshold must be positive")
  else
    let mean_delta := monitoring.mean_intensity_delta
    let std_delta := monitoring.std_intensity_delta
    let step1 : Bool × List String :=
      match model.training_mean, mean_delta with
      | none, _ => (false, [])
      | some _, some d =>
          if |d| > drift_threshold then (true, [CONSIDER_RETRAINING_MODEL])
          else (false, [])
      | some _, none => (false, [])
    let step2 : Bool × List String :=
      match model.training_std, std_delta with
      | none, _ => step1
      | some _, some d =>
          if |d| > drift_threshold then
            (true,
              if CONSIDER_RETRAINING_MODEL ∈ step1.2 then step1.2
              else step1.2 ++ [CONSIDER_RETRAINING_MODEL])
          else step1
      | some _, none => step1
    .ok { drift_detected := step2.1
          mean_intensity_delta := mean_delta
          std_intensity_delta := std_delta
          recommendations := step2.2 }

/-- A per-tile prediction record (model/inferences.py Predictions). -/
structure Prediction where
  prediction : Nat
  mean_intensity : ℚ
  deriving Repr, DecidableEq

/-- One tile file as the batch loop sees it: its filename (whose stem is the tile
id), and the outcome of each fallible per-tile step. validate carries the
validate_raster result on that file; load the load_tile outcome (the tile data
itself is abstracted away); predictOutcome the predict outcome, which determines
the prediction and mean intensity recorded on success. duration is the wall-clock
time measured by the per-prediction Timer. -/
structure TileFile where
  name : String
  stem : String
  validateOutcome : Except PyError Unit
  loadOutcome : Except PyError Unit
  predictOutcome : Except PyError Prediction
  duration : ℚ
  deriving Repr, DecidableEq

/-- The try-block of the batch loop body (batch_inferences.py lines 59-63):
validate_raster, then load_tile, then predict; the first raised error escapes
to the except handler. -/
def processTile (t : TileFile) : Except PyError Prediction :=
  match t.validateOutcome with
  | .error e => .error e
  | .ok _ =>
    match t.loadOutcome with
    | .error e => .error e
    | .ok _ => t.predictOutcome

/-- True when the per-tile sequence validate, load, predict all succeed. -/
def tileSucceeds (t : TileFile) : Bool :=
  match processTile t with
  | .ok _ => true
  | .error _ => false

/-- A per-tile result record (batch_inferences.py _get_result). -/
structure ResultRecord where
  tile_id : String
  run_id : String
  model_path : String
  prediction : Nat
  mean_intensity : ℚ
  deriving Repr, DecidableEq

/-- The batch loop body (batch_inferences.py lines 57-80): on success increment the
success counter, the per-class counter, record timing and mean intensity, and
append a result record; on any failure increment the failure counter and continue. -/
def batchTileStep (run_id model_path : String)
    (st : RecorderState × List ResultRecord) (t : TileFile) :
    RecorderState × List ResultRecord :=
  match processTile t with
  | .ok p =>
      let m := st.1.increment TILES_INFERRED 1
      let m := m.increment ("prediction_" ++ toString p.prediction) 1
      let m := m.record_timing "inference_time_seconds" t.duration
      let m := m.record_value "mean_intensity" p.mean_intensity
      (m, st.2 ++ [{ tile_id := t.stem
                     run_id := run_id
                     model_path := model_path
                     prediction := p.prediction
                     mean_intensity := p.mean_intensity }])
  | .error _ =>
      (st.1.increment TILES_FAILED 1, st.2)

/-- Insert into a sorted list keeping earlier-input elements before equal later
ones, as one step of a stable sort. -/
def insertSorted {α : Type} (le : α → α → Bool) (x : α) : List α → List α
  | [] => [x]
  | y :: ys => if le x y then x :: y :: ys else y :: insertSorted le x ys

/-- Python builtin sorted(): a stable ascending sort. -/
def pySorted {α : Type} (le : α → α → Bool) (l : List α) : List α :=
  l.foldr (insertSorted le) []

/-- Lexicographic filename order used by sorted() on the glob result. -/
def byName (a b : TileFile) : Bool := decide (a.name ≤ b.name)

/-- The environment of one run_batch_inference call: its path arguments, the
load_model outcome (json.load of model_path), the glob result for *.tif in the
tiles directory, and the batch Timer reading. -/
structure BatchEnv where
  run_id : String
  model_path : String
  tiles_directory : String
  loadModelOutcome : Except PyError Model
  tileFiles : List TileFile
  batchDuration : ℚ
  deriving Repr, DecidableEq

/-- The metadata block of the batch run report. -/
structure BatchMetadata where
  run_id : String
  model_path : String
  tiles_directory : String
  tiles_inferred : Int
  tiles_failed : Int
  batch_duration_seconds : ℚ
  monitoring : MonitoringMetrics
  deriving Repr, DecidableEq

/-- The batch run report written to output_path as the last step of a run; a run
that fails with Except.error never reaches the write and produces no file. -/
structure BatchOutput where
  metadata : BatchMetadata
  predictions : List ResultRecord
  deriving Repr, DecidableEq

/-- run_batch_inference (batch_inferences.py lines 32-113): reset the module
recorder, load the model (fatal on failure), enumerate and sort the tile files,
fail fatally when none are found, process each tile with per-tile failure
isolation, record the batch duration, build the monitoring summary and write
the report. -/
def run_batch_inference (sqrt : ℚ → ℚ) (env : BatchEnv) : Except PyError BatchOutput :=
  let metrics := emptyRecorder
  match env.loadModelOutcome with
  | .error e => .error e
  | .ok model =>
    let tile_paths := pySorted byName env.tileFiles
    if tile_paths = [] then
      .error (.fileNotFoundError ("No tiles found in " ++ env.tiles_directory))
    else
      let st := tile_paths.foldl (batchTileStep env.run_id env.model_path) (metrics, [])
      let metrics := st.1.record_timing "batch_duration_seconds" env.batchDuration
      let monitoring := build_monitoring_metrics sqrt model metrics
      .ok { metadata := { run_id := env.run_id
                          model_path := env.model_path
                          tiles_directory := env.tiles_directory
                          tiles_inferred := dictGetInt metrics.counters TILES_INFERRED
                          tiles_failed := dictGetInt metrics.counters TILES_FAILED
                          batch_duration_seconds := env.batchDuration
                          monitoring := monitoring }
            predictions := st.2 }

/-- The state of the batch loop after processing all sorted tile files of an
environment, starting from the freshly reset recorder and an empty result list. -/
def batchFold (env : BatchEnv) : RecorderState × List ResultRecord :=
  (pySorted byName env.tileFiles).foldl (batchTileStep env.run_id env.model_path)
    (emptyRecorder, [])

/-- The report run_batch_inference writes on a successful run, spelled out. -/
def batchReport (sqrt : ℚ → ℚ) (env : BatchEnv) (model : Model) : BatchOutput :=
  { metadata := { run_id := env.run_id
                  model_path := env.model_path
                  tiles_directory := env.tiles_directory
                  tiles_inferred := dictGetInt ((batchFold env).1.record_timing
                      "batch_duration_seconds" env.batchDuration).counters TILES_INFERRED
                  tiles_failed := dictGetInt ((batchFold env).1.record_timing
                      "batch_duration_seconds" env.batchDuration).counters TILES_FAILED
                  batch_duration_seconds := env.batchDuration
                  monitoring := build_monitoring_metrics sqrt model
                    ((batchFold env).1.record_timing
                      "batch_duration_seconds" env.batchDuration) }
    predictions := (batchFold env).2 }

/-- A typical north-up geotransform. -/
def sampleAffine : Affine := { a := 1, b := 0, c := 0, d := 0, e := -1, f := 0 }

/-- A valid 512 by 512 uint8 raster with a CRS. -/
def sampleRaster : Raster :=
  { existsOnDisk := true, crs := some "EPSG:4326", width := 512, height := 512
    dtype := "uint8", transform := sampleAffine }

/-- An existing raster that carries no coordinate reference system. -/
def noCRSRaster : Raster :=
  { existsOnDisk := true, crs := none, width := 512, height := 512
    dtype := "uint8", transform := sampleAffine }

/-- A raster path with no file behind it. -/
def missingRaster : Raster :=
  { existsOnDisk := false, crs := some "EPSG:4326", width := 512, height := 512
    dtype := "uint8", transform := sampleAffine }

/-- A model artifact holding only a threshold, as an artifact not produced by the
trainer might: no training_mean and no training_std. -/
def thresholdOnlyModel : Model :=
  { threshold := some 5, training_mean := none, training_std := none }

/-- A model artifact with a full training baseline. -/
def trainedModel : Model :=
  { threshold := some 3, training_mean := some 3, training_std := some 4 }

/-- A recorder state holding one recorded mean-intensity value of 7. -/
def oneValueRecorder : RecorderState :=
  { counters := [], timings := [], values := [("mean_intensity", [7])] }

/-- True when the model and monitoring metrics put the mean-intensity metric in
drift: training_mean present and the (non-null) delta exceeds the threshold. -/
def meanDriftFlag (model : Model) (monitoring : MonitoringMetrics) (t : ℚ) : Bool :=
  match model.training_mean, monitoring.mean_intensity_delta with
  | some _, some d => decide (|d| > t)
  | _, _ => false

/-- True when the model and monitoring metrics put the std-intensity metric in
drift: training_std present and the (non-null) delta exceeds the threshold. -/
def stdDriftFlag (model : Model) (monitoring : MonitoringMetrics) (t : ℚ) : Bool :=
  match model.training_std, monitoring.std_intensity_delta with
  | some _, some d => decide (|d| > t)
  | _, _ => false

/-- A monitoring-metrics record with both deltas present, the mean delta beyond a
threshold of one half. -/
def driftedMonitoring : MonitoringMetrics :=
  { bright_percentage := 50, bright_count := 1, dark_count := 1
    mean_intensity_mean := 4, mean_intensity_std := 4
    mean_intensity_delta := some 1, std_intensity_delta := some 0 }

/-- The property of not being a tile-size error kind. -/
def notTileSizeErr (e : PyError) : Prop :=
  e ≠ .tileSizeTypeError ∧ ∀ v, e ≠ .tileSizeValueError v

/-- A tile file whose validate, load and predict steps all succeed with class 1. -/
def okTileA : TileFile :=
  { name := "00000.tif", stem := "00000", validateOutcome := .ok ()
    loadOutcome := .ok (), predictOutcome := .ok { prediction := 1, mean_intensity := 9 }
    duration := 0 }

/-- A tile file that fails validation with an unsupported dtype. -/
def badDtypeTile : TileFile :=
  { name := "00001.tif", stem := "00001"
    validateOutcome := .error (.valueError "Unsupported raster dtype int32")
    loadOutcome := .ok (), predictOutcome := .ok { prediction := 0, mean_intensity := 2 }
    duration := 0 }

/-- A tile file whose validate, load and predict steps all succeed with class 0. -/
def okTileC : TileFile :=
  { name := "00002.tif", stem := "00002", validateOutcome := .ok ()
    loadOutcome := .ok (), predictOutcome := .ok { prediction := 0, mean_intensity := 1 }
    duration := 0 }

/-- A batch environment over three tiles, one of which fails validation. -/
def threeTilesEnv : BatchEnv :=
  { run_id := "run-0", model_path := "model/models/latest_model.json"
    tiles_directory := "data/tiles", loadModelOutcome := .ok trainedModel
    tileFiles := [okTileA, badDtypeTile, okTileC], batchDuration := 0 }

/-- A batch environment over an empty tiles directory. -/
def emptyTilesEnv : BatchEnv :=
  { run_id := "run-1", model_path := "model/models/latest_model.json"
    tiles_directory := "data/tiles", loadModelOutcome := .ok trainedModel
    tileFiles := [], batchDuration := 0 }

/-- Three concurrent callers each performing one increment of the same counter. -/
def threeIncrements : List RecOp :=
  [.increment "requests" 1, .increment "requests" 1, .increment "requests" 1]

theorem emit_le_iff {S w k : ℕ} (hS : 0 < S) : k * S + S ≤ w ↔ k < w / S := by
  rw [Nat.lt_iff_add_one_le, Nat.le_div_iff_mul_le hS, add_one_mul]

theorem tileBody_range (r : Raster) (h w S : ℕ) (hS : 0 < S) (row : ℕ)
    (hrow : row + S ≤ h) (n : ℕ) (acc : List Tile) (c : ℕ) :
    ((List.range c).map fun k => k * S).foldl (tileBody r h w S row) (n, acc)
      = (n + min c (w / S),
         acc ++ (List.range (min c (w / S))).map fun j => mkTile r S (n + j) row (j * S)) := by
  induction c with
  | zero => simp
  | succ c ih =>
      rw [List.range_succ, List.map_append, List.foldl_append, ih]
      simp only [List.map_cons, List.map_nil, List.foldl_cons, List.foldl_nil]
      by_cases hc : c < w / S
      · have hemit : ¬ (w < c * S + S) := Nat.not_lt.mpr ((emit_le_iff hS).mpr hc)
        rw [tileBody, if_neg (by push_neg; exact ⟨hrow, Nat.not_lt.mp hemit⟩)]
        rw [min_eq_left hc.le, min_eq_left hc]
        simp [List.range_succ, List.append_assoc, Nat.add_assoc]
      · have hskip : w < c * S + S :=
          Nat.not_le.mp (fun hle => hc ((emit_le_iff hS).mp hle))
        rw [tileBody, if_pos (Or.inr hskip)]
        rw [min_eq_right (Nat.not_lt.mp hc),
          min_eq_right (Nat.le_succ_of_le (Nat.not_lt.mp hc))]

theorem tileBody_pyRange (r : Raster) (h w S : ℕ) (hS : 0 < S) (row : ℕ)
    (hrow : row + S ≤ h) (n : ℕ) (acc : List Tile) :
    (pyRange0 w S).foldl (tileBody r h w S row) (n, acc)
      = (n + w / S,
         acc ++ (List.range (w / S)).map fun j => mkTile r S (n + j) row (j * S)) := by
  have hmin : min ((w + S - 1) / S) (w / S) = w / S :=
    min_eq_right (Nat.div_le_div_right (by omega))
  rw [pyRange0, tileBody_range r h w S hS row hrow n acc, hmin]

theorem tileBody_skip (r : Raster) (h w S row : ℕ) (hrow : h < row + S)
    (l : List ℕ) (st : ℕ × List Tile) :
    l.foldl (tileBody r h w S row) st = st := by
  induction l generalizing st with
  | nil => rfl
  | cons x xs ih =>
      rw [List.foldl_cons, tileBody, if_pos (Or.inl hrow)]
      exact ih st

theorem tileLoop_range (r : Raster) (h w S : ℕ) (hS : 0 < S) (c : ℕ) :
    ((List.range c).map fun k => k * S).foldl
        (fun st row => (pyRange0 w S).foldl (tileBody r h w S row) st) (0, [])
      = ((min c (h / S)) * (w / S),
         (List.range (min c (h / S))).flatMap fun i =>
           (List.range (w / S)).map fun j =>
             mkTile r S (i * (w / S) + j) (i * S) (j * S)) := by
  induction c with
  | zero => simp
  | succ c ih =>
      rw [List.range_succ, List.map_append, List.foldl_append, ih]
      simp only [List.map_cons, List.map_nil, List.foldl_cons, List.foldl_nil]
      by_cases hc : c < h / S
      · have hrow : c * S + S ≤ h := (emit_le_iff hS).mpr hc
        rw [tileBody_pyRange r h w S hS (c * S) hrow]
        rw [min_eq_left hc.le, min_eq_left hc]
        simp [List.range_succ, add_one_mul]
      · rw [tileBody_skip r h w S (c * S)
          (Nat.not_le.mp (fun hle => hc ((emit_le_iff hS).mp hle))) _ _]
        rw [min_eq_right (Nat.not_lt.mp hc),
          min_eq_right (Nat.le_succ_of_le (Nat.not_lt.mp hc))]

theorem blocks_eq_range (r : Raster) (S nC : ℕ) (m : ℕ) :
    ((List.range m).flatMap fun i =>
        (List.range nC).map fun j => mkTile r S (i * nC + j) (i * S) (j * S))
      = (List.range (m * nC)).map fun k =>
          mkTile r S k ((k / nC) * S) ((k % nC) * S) := by
  induction m with
  | zero => simp
  | succ m ih =>
      rw [List.range_succ, List.flatMap_append, ih, add_one_mul, List.range_add,
        List.map_append, List.map_map]
      congr 1
      · simp only [List.flatMap_cons, List.flatMap_nil, List.append_nil]
        refine List.map_congr_left fun j hj => ?_
        have hjlt : j < nC := List.mem_range.mp hj
        have hpos : 0 < nC := Nat.lt_of_le_of_lt (Nat.zero_le j) hjlt
        have hdiv : (m * nC + j) / nC = m := by
          rw [Nat.mul_comm m nC, Nat.mul_add_div hpos, Nat.div_eq_of_lt hjlt,
            Nat.add_zero]
        have hmod : (m * nC + j) % nC = j := by
          rw [Nat.mul_comm m nC, Nat.mul_add_mod, Nat.mod_eq_of_lt hjlt]
        simp [Function.comp, hdiv, hmod]

theorem tileLoop_canonical (r : Raster) (h w S : ℕ) (hS : 0 < S) :
    tileLoop r h w S
      = ((h / S) * (w / S),
         (List.range ((h / S) * (w / S))).map fun k =>
           mkTile r S k ((k / (w / S)) * S) ((k % (w / S)) * S)) := by
  have hmin : min ((h + S - 1) / S) (h / S) = h / S :=
    min_eq_right (Nat.div_le_div_right (by omega))
  have hout : pyRange0 h S = (List.range ((h + S - 1) / S)).map fun k => k * S := rfl
  rw [tileLoop, hout, tileLoop_range r h w S hS, hmin,
    blocks_eq_range r S (w / S) (h / S)]

theorem generate_tiles_ok (r : Raster) (S : ℕ) (hS : 0 < S)
    (hv : validate_raster r = .ok ()) :
    generate_tiles r (.int (S : ℤ))
      = .ok { tiles := (tileLoop r r.height.toNat r.width.toNat S).2
              loggedCount := (tileLoop r r.height.toNat r.width.toNat S).1
              ret := none } := by
  have hpos : ¬ ((S : ℤ) ≤ 0) := by omega
  simp [generate_tiles, hv, hpos]

/-- C1: for every raster of height H and width W passing validation and every positive
integer tile size S, generate_tiles emits exactly (H / S) * (W / S) tiles; every emitted
tile is exactly S by S pixels (windows extending past the raster bound are skipped, never
clipped); and tile ids are the zero-padded integers 0..count-1 assigned in row-major scan
order: the k-th emitted tile sits at row origin (k / (W / S)) * S and column origin
(k % (W / S)) * S. -/
theorem generate_tiles_grid (r : Raster) (S : ℕ) (hS : 0 < S)
    (hv : validate_raster r = .ok ()) :
    ∃ res, generate_tiles r (.int (S : ℤ)) = .ok res ∧
      res.tiles.length = (r.height.toNat / S) * (r.width.toNat / S) ∧
      (∀ t ∈ res.tiles, t.height = S ∧ t.width = S) ∧
      res.tiles = (List.range ((r.height.toNat / S) * (r.width.toNat / S))).map
        (fun k => mkTile r S k
          ((k / (r.width.toNat / S)) * S) ((k % (r.width.toNat / S)) * S)) ∧
      res.tiles.map Tile.id = List.range res.tiles.length ∧
      ∀ t ∈ res.tiles, t.filename = zeroPad5 t.id ++ ".tif" := by
  have hc := tileLoop_canonical r r.height.toNat r.width.toNat S hS
  refine ⟨_, generate_tiles_ok r S hS hv, ?_, ?_, ?_, ?_, ?_⟩
  · simp [hc]
  · intro t ht
    simp only [hc] at ht
    obtain ⟨k, -, rfl⟩ := List.mem_map.mp ht
    exact ⟨rfl, rfl⟩
  · simp [hc]
  · simp [hc, List.map_map, mkTile, Function.comp_def]
  · intro t ht
    simp only [hc] at ht
    obtain ⟨k, -, rfl⟩ := List.mem_map.mp ht
    rfl

/-- Witness for generate_tiles_grid: a valid 512 by 512 raster with tile size 256
yields the 2 by 2 grid of four 256 by 256 tiles. -/
theorem generate_tiles_grid_witness :
    0 < 256 ∧ validate_raster sampleRaster = .ok () ∧
    (∃ res, generate_tiles sampleRaster (.int ((256 : ℕ) : ℤ)) = .ok res ∧
      res.tiles.length = (sampleRaster.height.toNat / 256) * (sampleRaster.width.toNat / 256) ∧
      (∀ t ∈ res.tiles, t.height = 256 ∧ t.width = 256) ∧
      res.tiles = (List.range
          ((sampleRaster.height.toNat / 256) * (sampleRaster.width.toNat / 256))).map
        (fun k => mkTile sampleRaster 256 k
          ((k / (sampleRaster.width.toNat / 256)) * 256)
          ((k % (sampleRaster.width.toNat / 256)) * 256)) ∧
      res.tiles.map Tile.id = List.range res.tiles.length ∧
      ∀ t ∈ res.tiles, t.filename = zeroPad5 t.id ++ ".tif") :=
  ⟨by norm_num, by decide, generate_tiles_grid sampleRaster 256 (by norm_num) (by decide)⟩

/-- C8 counterexample: on a valid 512 by 512 raster with tile size 256, generate_tiles
emits and logs 4 tiles but its return value is None, not the tile count. -/
theorem generate_tiles_return_value_cex :
    (generate_tiles sampleRaster (.int 256)).map GenerateResult.loggedCount
        = .ok 4 ∧
    (generate_tiles sampleRaster (.int 256)).map GenerateResult.ret = .ok none ∧
    (generate_tiles sampleRaster (.int 256)).map GenerateResult.ret
      ≠ (generate_tiles sampleRaster (.int 256)).map
          (fun res => some res.loggedCount) := by decide

/-- C8 amended: for every valid raster and positive integer tile size, generate_tiles
logs the total count of tiles it emitted and returns None (the count is not returned
to the caller). -/
theorem generate_tiles_logs_count (r : Raster) (S : ℕ) (hS : 0 < S)
    (hv : validate_raster r = .ok ()) :
    ∃ res, generate_tiles r (.int (S : ℤ)) = .ok res ∧
      res.ret = none ∧ res.loggedCount = res.tiles.length := by
  have hc := tileLoop_canonical r r.height.toNat r.width.toNat S hS
  exact ⟨_, generate_tiles_ok r S hS hv, rfl, by simp [hc]⟩

/-- Witness for generate_tiles_logs_count at the 512 by 512 sample raster. -/
theorem generate_tiles_logs_count_witness :
    0 < 256 ∧ validate_raster sampleRaster = .ok () ∧
    (∃ res, generate_tiles sampleRaster (.int ((256 : ℕ) : ℤ)) = .ok res ∧
      res.ret = none ∧ res.loggedCount = res.tiles.length) :=
  ⟨by norm_num, by decide, generate_tiles_logs_count sampleRaster 256 (by norm_num) (by decide)⟩

theorem validate_raster_exists_kind (r : Raster) (e : PyError)
    (h : validate_raster_exists r = .error e) : notTileSizeErr e := by
  unfold validate_raster_exists at h
  split at h
  · cases h
  · injection h with he
    subst he
    exact ⟨nofun, fun v => nofun⟩

theorem validate_crs_kind (crs : Option String) (e : PyError)
    (h : validate_crs crs = .error e) : notTileSizeErr e := by
  unfold validate_crs mkUndefinedCRSError at h
  cases crs with
  | none =>
      simp only at h
      injection h with he
      subst he
      exact ⟨nofun, fun v => nofun⟩
  | some c => cases h

theorem validate_dimensions_kind (width height : Int) (e : PyError)
    (h : validate_dimensions width height = .error e) : notTileSizeErr e := by
  unfold validate_dimensions at h
  split at h
  · injection h with he
    subst he
    exact ⟨nofun, fun v => nofun⟩
  · cases h

theorem validate_dtype_kind (dtype : String) (e : PyError)
    (h : validate_dtype dtype = .error e) : notTileSizeErr e := by
  unfold validate_dtype at h
  split at h
  · cases h
  · injection h with he
    subst he
    exact ⟨nofun, fun v => nofun⟩

theorem validate_raster_error_kinds (r : Raster) (e : PyError)
    (h : validate_raster r = .error e) : notTileSizeErr e := by
  unfold validate_raster at h
  cases h1 : validate_raster_exists r with
  | error e1 =>
      rw [h1] at h
      injection h with he
      exact he ▸ validate_raster_exists_kind r e1 h1
  | ok u =>
      rw [h1] at h
      cases h2 : validate_crs r.crs with
      | error e2 =>
          rw [h2] at h
          injection h with he
          exact he ▸ validate_crs_kind r.crs e2 h2
      | ok u2 =>
          rw [h2] at h
          cases h3 : validate_dimensions r.width r.height with
          | error e3 =>
              rw [h3] at h
              injection h with he
              exact he ▸ validate_dimensions_kind r.width r.height e3 h3
          | ok u3 =>
              rw [h3] at h
              exact validate_dtype_kind r.dtype e h

/-- C10: generate_tiles validates the raster before checking its tile-size
preconditions: when the raster fails validation, the call fails with that
raster-validation error whatever the tile_size argument is; and a tile-size error
(type or value) is raised only when the raster passed all four validation checks. -/
theorem generate_tiles_validates_first (r : Raster) (ts : PyVal) :
    (∀ e, validate_raster r = .error e → generate_tiles r ts = .error e) ∧
    ((generate_tiles r ts = .error .tileSizeTypeError ∨
        ∃ v, generate_tiles r ts = .error (.tileSizeValueError v)) →
      validate_raster r = .ok ()) := by
  constructor
  · intro e he
    simp [generate_tiles, he]
  · intro hts
    cases hv : validate_raster r with
    | ok u => cases u; rfl
    | error e =>
        exfalso
        have hg : generate_tiles r ts = .error e := by simp [generate_tiles, hv]
        have hk := validate_raster_error_kinds r e hv
        cases hts with
        | inl h0 => exact hk.1 (by rw [hg] at h0; injection h0)
        | inr h0 =>
            obtain ⟨v, hv0⟩ := h0
            exact hk.2 v (by rw [hg] at hv0; injection hv0)

/-- Witness for generate_tiles_validates_first: a missing raster file combined with a
tile_size of the wrong type fails with the file-not-found validation error, not a
tile-size error. -/
theorem generate_tiles_validates_first_witness :
    validate_raster missingRaster = .error (.fileNotFoundError "Raster file not found") ∧
    generate_tiles missingRaster (.str "not a size")
      = .error (.fileNotFoundError "Raster file not found") :=
  ⟨by decide,
    (generate_tiles_validates_first missingRaster (.str "not a size")).1 _ (by decide)⟩

/-- C2: on an existing raster that carries no coordinate reference system, validate_raster
reaches the CRS check second, as specified, but the raise of UndefinedCRSError aborts with
TypeError: validate_crs calls UndefinedCRSError() while the initializer in
core_pipeline/exceptions.py requires a positional crs argument. The documented
UndefinedCRS error kind is never produced. -/
theorem validate_crs_raises_type_error :
    validate_raster noCRSRaster =
      .error (.typeError
        "UndefinedCRSError.__init__ missing 1 required positional argument: crs") ∧
    validate_raster noCRSRaster ≠ .error .undefinedCRSError ∧
    (∀ crs, validate_crs crs ≠ .error .undefinedCRSError) := by
  refine ⟨by decide, by decide, fun crs => ?_⟩
  cases crs with
  | none => simp [validate_crs, mkUndefinedCRSError]
  | some c => simp [validate_crs]

/-- C3 counterexample: on a model carrying a threshold but no training_mean,
build_monitoring_metrics does not return a null mean-intensity delta: line 126 of
observability.py falls back to the threshold key, so with one recorded mean
intensity of 7 and threshold 5 the delta is 2. -/
theorem monitoring_fallback_cex :
    thresholdOnlyModel.training_mean = none ∧
    (build_monitoring_metrics (fun q => q) thresholdOnlyModel
        oneValueRecorder).mean_intensity_delta = some 2 := by
  refine ⟨rfl, ?_⟩
  simp [build_monitoring_metrics, thresholdOnlyModel, oneValueRecorder, dictGet, npMean]
  norm_num

/-- C3 amended: drift.mean_intensity_delta equals mean_intensity.mean minus the
model training mean, where the training mean falls back to the model threshold
when training_mean is absent; the delta is null only when both training_mean and
threshold are absent. drift.std_intensity_delta equals mean_intensity.std minus
training_std when training_std is present and is null otherwise (no fallback). -/
theorem monitoring_drift_deltas (sqrt : ℚ → ℚ) (model : Model) (s : RecorderState) :
    (∀ t, model.training_mean = some t →
      (build_monitoring_metrics sqrt model s).mean_intensity_delta
        = some ((build_monitoring_metrics sqrt model s).mean_intensity_mean - t)) ∧
    (model.training_mean = none → ∀ t, model.threshold = some t →
      (build_monitoring_metrics sqrt model s).mean_intensity_delta
        = some ((build_monitoring_metrics sqrt model s).mean_intensity_mean - t)) ∧
    (model.training_mean = none → model.threshold = none →
      (build_monitoring_metrics sqrt model s).mean_intensity_delta = none) ∧
    (∀ t, model.training_std = some t →
      (build_monitoring_metrics sqrt model s).std_intensity_delta
        = some ((build_monitoring_metrics sqrt model s).mean_intensity_std - t)) ∧
    (model.training_std = none →
      (build_monitoring_metrics sqrt model s).std_intensity_delta = none) := by
  refine ⟨fun t ht => ?_, fun hn t hth => ?_, fun hn hth => ?_, fun t ht => ?_, fun hn => ?_⟩
  · simp [build_monitoring_metrics, ht]
  · simp [build_monitoring_metrics, hn, hth]
  · simp [build_monitoring_metrics, hn, hth]
  · simp [build_monitoring_metrics, ht]
  · simp [build_monitoring_metrics, hn]

/-- Witness for monitoring_drift_deltas: a model with training_mean 3 against one
recorded mean intensity of 7 yields a mean-intensity delta of 7 minus 3. -/
theorem monitoring_drift_deltas_witness :
    trainedModel.training_mean = some 3 ∧
    (build_monitoring_metrics (fun q => q) trainedModel
        oneValueRecorder).mean_intensity_delta
      = some ((build_monitoring_metrics (fun q => q) trainedModel
          oneValueRecorder).mean_intensity_mean - 3) :=
  ⟨rfl, (monitoring_drift_deltas (fun q => q) trainedModel oneValueRecorder).1 3 rfl⟩

/-- C6: train_model fails with the EmptyTrainingSet kind (ValueError) if and only if
the input feature list is empty; on a non-empty list the returned model has
threshold = training_mean = mean of the per-tile mean intensities and
training_std = their population standard deviation. -/
theorem train_model_spec (sqrt : ℚ → ℚ) (l : List Features) :
    (l = [] → train_model sqrt l = .error (.valueError
      "Cannot train model: aggregated_features must contain at least one feature set.")) ∧
    (l ≠ [] → train_model sqrt l
      = .ok { threshold := some (npMean (l.map Features.mean_intensity))
              training_mean := some (npMean (l.map Features.mean_intensity))
              training_std := some (npStd sqrt (l.map Features.mean_intensity)) }) := by
  constructor
  · intro h
    simp [train_model, h]
  · intro h
    simp [train_model, h]

/-- Witness for train_model_spec on two feature sets with mean intensities 2 and 4. -/
theorem train_model_spec_witness :
    ([⟨2, 0⟩, ⟨4, 0⟩] : List Features) ≠ [] ∧
    train_model (fun q => q) [⟨2, 0⟩, ⟨4, 0⟩]
      = .ok { threshold :=
                some (npMean (([⟨2, 0⟩, ⟨4, 0⟩] : List Features).map Features.mean_intensity))
              training_mean :=
                some (npMean (([⟨2, 0⟩, ⟨4, 0⟩] : List Features).map Features.mean_intensity))
              training_std :=
                some (npStd (fun q => q)
                  (([⟨2, 0⟩, ⟨4, 0⟩] : List Features).map Features.mean_intensity)) } :=
  ⟨by decide, (train_model_spec (fun q => q) [⟨2, 0⟩, ⟨4, 0⟩]).2 (by decide)⟩

theorem check_model_health_closed (model : Model) (monitoring : MonitoringMetrics)
    (t : ℚ) (ht : 0 < t) :
    check_model_health model monitoring t
      = .ok { drift_detected := meanDriftFlag model monitoring t || stdDriftFlag model monitoring t
              mean_intensity_delta := monitoring.mean_intensity_delta
              std_intensity_delta := monitoring.std_intensity_delta
              recommendations :=
                if meanDriftFlag model monitoring t || stdDriftFlag model monitoring t
                then [CONSIDER_RETRAINING_MODEL] else [] } := by
  have hgt : ¬ (t ≤ 0) := not_le.mpr ht
  unfold check_model_health meanDriftFlag stdDriftFlag
  rw [if_neg hgt]
  rcases model.training_mean with _ | a <;> rcases model.training_std with _ | b <;>
    rcases monitoring.mean_intensity_delta with _ | d <;>
    rcases monitoring.std_intensity_delta with _ | e <;>
    simp only [] <;> split_ifs <;> simp_all
  all_goals try linarith
  all_goals rcases ‹_ ∨ _› with h | h <;> linarith

theorem meanDriftFlag_iff (model : Model) (monitoring : MonitoringMetrics) (t : ℚ) :
    meanDriftFlag model monitoring t = true ↔
      (model.training_mean ≠ none ∧
        ∃ d, monitoring.mean_intensity_delta = some d ∧ t < |d|) := by
  unfold meanDriftFlag
  rcases model.training_mean with _ | a <;>
    rcases monitoring.mean_intensity_delta with _ | d <;> simp

theorem stdDriftFlag_iff (model : Model) (monitoring : MonitoringMetrics) (t : ℚ) :
    stdDriftFlag model monitoring t = true ↔
      (model.training_std ≠ none ∧
        ∃ d, monitoring.std_intensity_delta = some d ∧ t < |d|) := by
  unfold stdDriftFlag
  rcases model.training_std with _ | a <;>
    rcases monitoring.std_intensity_delta with _ | d <;> simp

/-- C7: check_model_health fails with the InvalidThreshold kind (ValueError) for every
non-positive drift threshold; for every positive threshold the report detects drift
iff at least one of the two metrics whose training baseline is defined has a non-null
delta with absolute value above the threshold, and exactly when drift is detected the
recommendations contain the retraining recommendation exactly once. -/
theorem check_model_health_spec (model : Model) (monitoring : MonitoringMetrics) (t : ℚ) :
    (t ≤ 0 → check_model_health model monitoring t
      = .error (.valueError "drift_threshold must be positive")) ∧
    (0 < t → ∃ rep, check_model_health model monitoring t = .ok rep ∧
      rep.mean_intensity_delta = monitoring.mean_intensity_delta ∧
      rep.std_intensity_delta = monitoring.std_intensity_delta ∧
      (rep.drift_detected = true ↔
        ((model.training_mean ≠ none ∧
           ∃ d, monitoring.mean_intensity_delta = some d ∧ t < |d|) ∨
         (model.training_std ≠ none ∧
           ∃ d, monitoring.std_intensity_delta = some d ∧ t < |d|))) ∧
      rep.recommendations.count CONSIDER_RETRAINING_MODEL
        = (if rep.drift_detected = true then 1 else 0)) := by
  refine ⟨fun hle => by simp [check_model_health, hle], fun ht => ?_⟩
  refine ⟨_, check_model_health_closed model monitoring t ht, rfl, rfl, ?_, ?_⟩
  · rw [Bool.or_eq_true, meanDriftFlag_iff, stdDriftFlag_iff]
  · by_cases hf :
      (meanDriftFlag model monitoring t || stdDriftFlag model monitoring t) = true <;>
      simp [hf]

/-- Witness for check_model_health_spec: threshold one half, a model with a defined
training mean and a mean-intensity delta of 1 triggers drift detection with one
retraining recommendation. -/
theorem check_model_health_spec_witness :
    (0 : ℚ) < 1 / 2 ∧
    (∃ rep, check_model_health trainedModel driftedMonitoring (1 / 2) = .ok rep ∧
      rep.mean_intensity_delta = driftedMonitoring.mean_intensity_delta ∧
      rep.std_intensity_delta = driftedMonitoring.std_intensity_delta ∧
      (rep.drift_detected = true ↔
        ((trainedModel.training_mean ≠ none ∧
           ∃ d, driftedMonitoring.mean_intensity_delta = some d ∧ 1 / 2 < |d|) ∨
         (trainedModel.training_std ≠ none ∧
           ∃ d, driftedMonitoring.std_intensity_delta = some d ∧ 1 / 2 < |d|))) ∧
      rep.recommendations.count CONSIDER_RETRAINING_MODEL
        = (if rep.drift_detected = true then 1 else 0)) :=
  ⟨by norm_num,
    (check_model_health_spec trainedModel driftedMonitoring (1 / 2)).2 (by norm_num)⟩

theorem dictGet_dictSet_self {β : Type} (d : List (String × β)) (n : String) (v : β) :
    dictGet (dictSet d n v) n = some v := by
  induction d with
  | nil => simp [dictSet, dictGet]
  | cons kv rest ih =>
      obtain ⟨k, w⟩ := kv
      by_cases hk : k = n <;> simp [dictSet, dictGet, hk, ih]

theorem dictGet_dictSet_ne {β : Type} (d : List (String × β)) (n m : String) (v : β)
    (h : n ≠ m) : dictGet (dictSet d n v) m = dictGet d m := by
  induction d with
  | nil => simp [dictSet, dictGet, h]
  | cons kv rest ih =>
      obtain ⟨k, w⟩ := kv
      by_cases hk : k = n
      · subst hk
        simp [dictSet, dictGet, h]
      · simp [dictSet, dictGet, hk, ih]

theorem dictGetInt_increment_self (s : RecorderState) (n : String) (v : Int) :
    dictGetInt (s.increment n v).counters n = dictGetInt s.counters n + v := by
  simp [RecorderState.increment, dictGetInt, dictGet_dictSet_self]

theorem dictGetInt_increment_ne (s : RecorderState) (n m : String) (v : Int)
    (h : n ≠ m) : dictGetInt (s.increment n v).counters m = dictGetInt s.counters m := by
  simp [RecorderState.increment, dictGetInt, dictGet_dictSet_ne _ _ _ _ h]

theorem counters_record_timing (s : RecorderState) (n : String) (d : ℚ) :
    (s.record_timing n d).counters = s.counters := rfl

theorem counters_record_value (s : RecorderState) (n : String) (v : ℚ) :
    (s.record_value n v).counters = s.counters := rfl

theorem prediction_name_ne_inferred (x : String) :
    ("prediction_" ++ x) ≠ TILES_INFERRED := by
  intro h
  have h2 : ("prediction_" ++ x).data = TILES_INFERRED.data := congrArg String.data h
  rw [String.data_append] at h2
  have h3 := congrArg List.head? h2
  simp [TILES_INFERRED, String.data] at h3

theorem prediction_name_ne_failed (x : String) :
    ("prediction_" ++ x) ≠ TILES_FAILED := by
  intro h
  have h2 : ("prediction_" ++ x).data = TILES_FAILED.data := congrArg String.data h
  rw [String.data_append] at h2
  have h3 := congrArg List.head? h2
  simp [TILES_FAILED, String.data] at h3

theorem inferred_ne_failed : TILES_INFERRED ≠ TILES_FAILED := by decide

theorem countP_add_countP_not {α : Type} (p : α → Bool) (l : List α) :
    l.countP p + l.countP (fun a => !p a) = l.length := by
  induction l with
  | nil => simp
  | cons x xs ih =>
      by_cases hx : p x <;> simp [List.countP_cons, hx, ← ih] <;> omega

theorem batch_loop_counts (rid mp : String) (ts : List TileFile) :
    ∀ (m : RecorderState) (res : List ResultRecord),
      dictGetInt ((ts.foldl (batchTileStep rid mp) (m, res)).1).counters TILES_INFERRED
          = dictGetInt m.counters TILES_INFERRED + (ts.countP tileSucceeds : ℤ) ∧
      dictGetInt ((ts.foldl (batchTileStep rid mp) (m, res)).1).counters TILES_FAILED
          = dictGetInt m.counters TILES_FAILED
            + (ts.countP (fun a => !tileSucceeds a) : ℤ) ∧
      ((ts.foldl (batchTileStep rid mp) (m, res)).2).length
          = res.length + ts.countP tileSucceeds := by
  induction ts with
  | nil => intro m res; simp
  | cons t ts ih =>
      intro m res
      rw [List.foldl_cons]
      cases hp : processTile t with
      | ok p =>
          have hs : tileSucceeds t = true := by simp [tileSucceeds, hp]
          have hb : batchTileStep rid mp (m, res) t
              = ((((m.increment TILES_INFERRED 1).increment
                    ("prediction_" ++ toString p.prediction) 1).record_timing
                    "inference_time_seconds" t.duration).record_value
                    "mean_intensity" p.mean_intensity,
                 res ++ [{ tile_id := t.stem, run_id := rid, model_path := mp
                           prediction := p.prediction
                           mean_intensity := p.mean_intensity }]) := by
            simp [batchTileStep, hp]
          rw [hb]
          obtain ⟨h1, h2, h3⟩ := ih _ _
          refine ⟨?_, ?_, ?_⟩
          · rw [h1, counters_record_value, counters_record_timing,
              dictGetInt_increment_ne _ _ _ _ (prediction_name_ne_inferred _),
              dictGetInt_increment_self, List.countP_cons]
            simp [hs]
            ring
          · rw [h2, counters_record_value, counters_record_timing,
              dictGetInt_increment_ne _ _ _ _ (prediction_name_ne_failed _),
              dictGetInt_increment_ne _ _ _ _ inferred_ne_failed, List.countP_cons]
            simp [hs]
          · rw [h3, List.countP_cons]
            simp [hs]
            omega
      | error e =>
          have hs : tileSucceeds t = false := by simp [tileSucceeds, hp]
          have hb : batchTileStep rid mp (m, res) t = (m.increment TILES_FAILED 1, res) := by
            simp [batchTileStep, hp]
          rw [hb]
          obtain ⟨h1, h2, h3⟩ := ih _ _
          refine ⟨?_, ?_, ?_⟩
          · rw [h1, dictGetInt_increment_ne _ _ _ _ (Ne.symm inferred_ne_failed),
              List.countP_cons]
            simp [hs]
          · rw [h2, dictGetInt_increment_self, List.countP_cons]
            simp [hs]
            ring
          · rw [h3, List.countP_cons]
            simp [hs]

theorem insertSorted_perm {α : Type} (le : α → α → Bool) (x : α) (l : List α) :
    List.Perm (insertSorted le x l) (x :: l) := by
  induction l with
  | nil => exact List.Perm.refl _
  | cons y ys ih =>
      by_cases h : le x y
      · simp [insertSorted, h]
      · rw [insertSorted, if_neg h]
        exact (ih.cons y).trans (List.Perm.swap x y ys)

theorem pySorted_perm {α : Type} (le : α → α → Bool) (l : List α) :
    List.Perm (pySorted le l) l := by
  induction l with
  | nil => exact List.Perm.refl _
  | cons x xs ih =>
      rw [pySorted, List.foldr_cons]
      exact (insertSorted_perm le x _).trans (ih.cons x)

/-- C4: for every batch run whose model loads and whose tile enumeration is non-empty,
run_batch_inference completes (per-tile failures never abort the run), and in the
resulting report tiles_inferred counts exactly the tiles whose validate-load-predict
sequence succeeded, tiles_failed counts exactly those where some step failed, the
predictions list has one entry per succeeded tile, and the two counters sum to the
total number of enumerated tiles. -/
theorem batch_partial_failure (sqrt : ℚ → ℚ) (env : BatchEnv) (model : Model)
    (hm : env.loadModelOutcome = .ok model) (hne : env.tileFiles ≠ []) :
    ∃ out, run_batch_inference sqrt env = .ok out ∧
      out.metadata.tiles_inferred = (env.tileFiles.countP tileSucceeds : ℤ) ∧
      out.metadata.tiles_failed
        = (env.tileFiles.countP (fun a => !tileSucceeds a) : ℤ) ∧
      out.predictions.length = env.tileFiles.countP tileSucceeds ∧
      out.metadata.tiles_inferred + out.metadata.tiles_failed
        = (env.tileFiles.length : ℤ) := by
  have hperm := pySorted_perm byName env.tileFiles
  have hsne : pySorted byName env.tileFiles ≠ [] := by
    intro h0
    exact hne (List.eq_nil_of_length_eq_zero
      (by rw [← hperm.length_eq, h0, List.length_nil]))
  obtain ⟨c1, c2, c3⟩ := batch_loop_counts env.run_id env.model_path
    (pySorted byName env.tileFiles) emptyRecorder []
  have hrun : run_batch_inference sqrt env = .ok (batchReport sqrt env model) := by
    simp only [run_batch_inference, hm]
    rw [if_neg hsne]
    rfl
  have hTI : (batchReport sqrt env model).metadata.tiles_inferred
      = (env.tileFiles.countP tileSucceeds : ℤ) := by
    show dictGetInt ((batchFold env).1.record_timing
        "batch_duration_seconds" env.batchDuration).counters TILES_INFERRED = _
    rw [counters_record_timing, batchFold, c1, hperm.countP_eq]
    simp [dictGetInt, dictGet, emptyRecorder]
  have hTF : (batchReport sqrt env model).metadata.tiles_failed
      = (env.tileFiles.countP (fun a => !tileSucceeds a) : ℤ) := by
    show dictGetInt ((batchFold env).1.record_timing
        "batch_duration_seconds" env.batchDuration).counters TILES_FAILED = _
    rw [counters_record_timing, batchFold, c2, hperm.countP_eq]
    simp [dictGetInt, dictGet, emptyRecorder]
  refine ⟨batchReport sqrt env model, hrun, hTI, hTF, ?_, ?_⟩
  · show (batchFold env).2.length = _
    rw [batchFold, c3, hperm.countP_eq]
    simp
  · rw [hTI, hTF]
    have hsum := countP_add_countP_not tileSucceeds env.tileFiles
    omega

/-- Witness for batch_partial_failure: three tiles of which one fails validation. -/
theorem batch_partial_failure_witness :
    threeTilesEnv.loadModelOutcome = .ok trainedModel ∧ threeTilesEnv.tileFiles ≠ [] ∧
    (∃ out, run_batch_inference (fun q => q) threeTilesEnv = .ok out ∧
      out.metadata.tiles_inferred = (threeTilesEnv.tileFiles.countP tileSucceeds : ℤ) ∧
      out.metadata.tiles_failed
        = (threeTilesEnv.tileFiles.countP (fun a => !tileSucceeds a) : ℤ) ∧
      out.predictions.length = threeTilesEnv.tileFiles.countP tileSucceeds ∧
      out.metadata.tiles_inferred + out.metadata.tiles_failed
        = (threeTilesEnv.tileFiles.length : ℤ)) :=
  ⟨rfl, by decide,
    batch_partial_failure (fun q => q) threeTilesEnv trainedModel rfl (by decide)⟩

/-- C5: every fatal error aborts a batch run before any tile is processed and before
anything is written to the output path: a model-load failure propagates as the run
outcome, and an empty tile enumeration fails with the NoTilesFound condition
(FileNotFoundError over the tiles directory); in both cases the function aborts
before reaching the report-writing step, so no output object exists. -/
theorem batch_fatal_no_output (sqrt : ℚ → ℚ) (env : BatchEnv) :
    (∀ e, env.loadModelOutcome = .error e → run_batch_inference sqrt env = .error e) ∧
    (∀ model, env.loadModelOutcome = .ok model → env.tileFiles = [] →
      run_batch_inference sqrt env
        = .error (.fileNotFoundError ("No tiles found in " ++ env.tiles_directory))) := by
  constructor
  · intro e he
    simp [run_batch_inference, he]
  · intro model hm h0
    simp [run_batch_inference, hm, h0, pySorted]

/-- Witness for batch_fatal_no_output: an empty tiles directory yields the fatal
no-tiles condition and no report. -/
theorem batch_fatal_no_output_witness :
    emptyTilesEnv.loadModelOutcome = .ok trainedModel ∧ emptyTilesEnv.tileFiles = [] ∧
    run_batch_inference (fun q => q) emptyTilesEnv
      = .error (.fileNotFoundError ("No tiles found in " ++ emptyTilesEnv.tiles_directory)) :=
  ⟨rfl, rfl, (batch_fatal_no_output (fun q => q) emptyTilesEnv).2 trainedModel rfl rfl⟩

theorem runOps_increments (name : String) (ops : List RecOp)
    (hall : ∀ op ∈ ops, op = RecOp.increment name 1) (s : RecorderState) :
    dictGetInt (runOps s ops).counters name
      = dictGetInt s.counters name + (ops.length : ℤ) := by
  induction ops generalizing s with
  | nil => simp [runOps]
  | cons op rest ih =>
      have hop : op = .increment name 1 := hall op (List.mem_cons_self op rest)
      subst hop
      rw [runOps, List.foldl_cons]
      have htail : ∀ op ∈ rest, op = RecOp.increment name 1 :=
        fun op hmem => hall op (List.mem_cons_of_mem _ hmem)
      rw [show List.foldl applyOp (applyOp s (.increment name 1)) rest
          = runOps (applyOp s (.increment name 1)) rest from rfl, ih htail]
      rw [show applyOp s (.increment name 1) = s.increment name 1 from rfl,
        dictGetInt_increment_self]
      simp only [List.length_cons]
      push_cast
      ring

/-- C9: under the recorder's single-lock discipline each increment is one atomic state
transition, so a concurrent execution of N callers each incrementing the same counter
once on a freshly reset recorder is an arbitrary interleaving of those N atomic
increments; every such interleaving ends with the counter exactly at N, and any
snapshot taken between operations observes exactly the number of increments applied
so far (never a partial write). -/
theorem metrics_no_lost_updates (name : String) (ops : List RecOp)
    (h : ∀ op ∈ ops, op = RecOp.increment name 1) :
    dictGetInt (runOps emptyRecorder ops).counters name = (ops.length : ℤ) ∧
    ∀ pre suf, ops = pre ++ suf →
      dictGetInt ((runOps emptyRecorder pre).snapshot).counters name
        = (pre.length : ℤ) := by
  constructor
  · rw [runOps_increments name ops h emptyRecorder]
    simp [dictGetInt, dictGet, emptyRecorder]
  · intro pre suf heq
    have hpre : ∀ op ∈ pre, op = RecOp.increment name 1 :=
      fun op hmem => h op (heq ▸ List.mem_append_left suf hmem)
    rw [RecorderState.snapshot, runOps_increments name pre hpre emptyRecorder]
    simp [dictGetInt, dictGet, emptyRecorder]

/-- Witness for metrics_no_lost_updates: three concurrent increments of the counter
named requests sum to exactly three. -/
theorem metrics_no_lost_updates_witness :
    (∀ op ∈ threeIncrements, op = RecOp.increment "requests" 1) ∧
    dictGetInt (runOps emptyRecorder threeIncrements).counters "requests"
      = (threeIncrements.length : ℤ) :=
  ⟨by decide, (metrics_no_lost_updates "requests" threeIncrements (by decide)).1⟩

end Pipeline
